import Mathlib

/-
Shallow embedding of the offline-first sync engine of cemobiart-cloud/cemoart.ai.

The data model follows src/constants.ts (the types half of the file: SheetName,
BaseItem, Product, Sale, Expense, Customer, AppItem, SyncQueueItem,
NetworkStatus, AppNotification).  The operations follow the App component in
src/unnamed/part_000: handleSync (lines 118-199), handleSaveItem (266-362,
embedded here at its Customers instantiation), handleSaleSubmit (364-472),
executeDelete (479-527), and the online handler of the network monitor
(218-237).

The services imported by the component (services/storageService and
services/apiService) are not under src/; the definitions for them below are
modelled from the spec (sections 4.1, 4.2 and 6) and are marked as such in
their doc comments.

JavaScript numbers are embedded as Int (Nat for epoch timestamps), strings as
String, optional or possibly-undefined fields as Option.  The JavaScript
falsy-or idiom `x || y` on strings is embedded by strOr / orElseStr ("" and
undefined are the falsy string values that occur).  localStorage is embedded
as the stored* fields of AppState, React state as the remaining fields;
setTimeout-deferred work is embedded as separate functions for the scheduled
callbacks (the pacing delays inside handleSync have no state effect and are
dropped).
-/

namespace CemoArt

/-- SheetName from src/constants.ts. -/
inductive SheetName where
  | Products
  | Sales
  | Expenses
  | Customers
deriving DecidableEq, Repr

/-- The action field of SyncQueueItem from src/constants.ts. -/
inductive SyncAction where
  | ADD
  | UPDATE
  | DELETE
deriving DecidableEq, Repr

/-- The Status field of Sale from src/constants.ts. -/
inductive SaleStatus where
  | Paid
  | Pending
  | Cancelled
deriving DecidableEq, Repr

/-- NetworkStatus from src/constants.ts. -/
inductive NetworkStatus where
  | ONLINE
  | OFFLINE
  | SYNCING
deriving DecidableEq, Repr

/-- The type field of AppNotification from src/constants.ts. -/
inductive NotifKind where
  | error
  | warning
  | info
  | success
deriving DecidableEq, Repr

/-- Product from src/constants.ts (BaseItem fields inlined). -/
structure Product where
  id : String
  ID : Option String
  timestamp : Nat
  ModifiedAt : Option String
  Name : String
  Category : String
  Price : Int
  Cost : Int
  Stock : Int
  Description : String
  Image : String
deriving DecidableEq, Repr

/-- Sale from src/constants.ts (BaseItem fields inlined). -/
structure Sale where
  id : String
  ID : Option String
  timestamp : Nat
  ModifiedAt : Option String
  ProductName : String
  Quantity : Int
  Price : Int
  Total : Int
  Customer : String
  Status : SaleStatus
  InvoiceNumber : String
  CustomerPhone : Option String
  CustomerAddress : Option String
  Date : Option String
deriving DecidableEq, Repr

/-- Expense from src/constants.ts (BaseItem fields inlined; the Type field is
renamed ExpType because Type is reserved in Lean). -/
structure Expense where
  id : String
  ID : Option String
  timestamp : Nat
  ModifiedAt : Option String
  ExpType : String
  Amount : Int
  Description : String
  Category : String
  Date : String
  ReceiptImage : Option String
deriving DecidableEq, Repr

/-- Customer from src/constants.ts (BaseItem fields inlined).  Email is the
remote-facing column that duplicates Address. -/
structure Customer where
  id : String
  ID : Option String
  timestamp : Nat
  ModifiedAt : Option String
  Name : String
  Email : String
  Phone : String
  Address : String
  TotalPurchases : Int
  LastPurchase : Option String
deriving DecidableEq, Repr

/-- AppItem from src/constants.ts, the union of the four record kinds. -/
inductive AppItem where
  | product (p : Product)
  | sale (s : Sale)
  | expense (e : Expense)
  | customer (c : Customer)
deriving DecidableEq, Repr

/-- SyncQueueItem from src/constants.ts. -/
structure SyncQueueItem where
  id : String
  action : SyncAction
  sheet : SheetName
  payload : AppItem
  timestamp : Nat
deriving DecidableEq, Repr

/-- AppNotification from src/constants.ts; the randomly generated id string is
ambient in the code (used only for dismissal) and is not carried here. -/
structure AppNotification where
  kind : NotifKind
  message : String
deriving DecidableEq, Repr

/-- The state of the App component (src/unnamed/part_000 lines 30-60): the
navigator.onLine flag, the NetworkStatus state, the isInitialized ref, the four
in-memory collections, their localStorage copies (stored*), the durable sync
queue, and the auxiliary queueCount / notifications / showSyncSuccess state.
The deferredOnlineCb flag records that the online handler has registered its
setTimeout callback. -/
structure AppState where
  online : Bool
  status : NetworkStatus
  isInitialized : Bool
  deferredOnlineCb : Bool
  products : List Product
  sales : List Sale
  expenses : List Expense
  customers : List Customer
  storedProducts : List Product
  storedSales : List Sale
  storedExpenses : List Expense
  storedCustomers : List Customer
  queue : List SyncQueueItem
  queueCount : Nat
  notifs : List AppNotification
  showSyncSuccess : Bool
deriving DecidableEq, Repr

/-- The JavaScript falsy-or `a || b` for two strings ("" is the falsy case). -/
def strOr (a b : String) : String :=
  if a = "" then b else a

/-- The JavaScript falsy-or `a || b` where a may be undefined (none) or a
string ("" is the falsy string). -/
def orElseStr (o : Option String) (b : String) : String :=
  match o with
  | some v => if v = "" then b else v
  | none => b

/-- Does a queue entry have the given (collection, id) key. -/
def sameKey (sh : SheetName) (i : String) (e : SyncQueueItem) : Bool :=
  decide (e.sheet = sh ∧ e.id = i)

/-- The queue entries for one (collection, id) key. -/
def filterKey (sh : SheetName) (i : String) (q : List SyncQueueItem) : List SyncQueueItem :=
  q.filter (sameKey sh i)

/-- Modelled from the spec: addToSyncQueue of services/storageService, which is
not under src/.  Per section 4.1 an enqueue merges by (collection, id): an
existing entry for the same key is replaced entirely (payload and action), and
FIFO position of a merged entry need not be preserved, the queue being ordered
oldest surviving insertion first.  Every enqueue is persisted synchronously. -/
def addToSyncQueue (item : SyncQueueItem) (q : List SyncQueueItem) : List SyncQueueItem :=
  (q.filter (fun e => !sameKey item.sheet item.id e)) ++ [item]

/-- Modelled from the spec: removeFromQueue of services/storageService, which
is not under src/.  Section 4.1 gives the queue contract remove(id); the
component calls it with the id of a delivered entry. -/
def removeFromQueue (i : String) (q : List SyncQueueItem) : List SyncQueueItem :=
  q.filter (fun e => !(decide (e.id = i)))

/-- Modelled from the spec: updateLocalItem of services/storageService, which
is not under src/.  Per section 4.2 applyUpdate it replaces the record with the
matching id in the stored collection (id preserved, position preserved),
persists the collection, and returns the new list, which the callers assign to
the in-memory state. -/
def updateLocalItem {α : Type} (getId : α → String) (item : α) (l : List α) : List α :=
  l.map (fun x => if getId x = getId item then item else x)

/-- Modelled from the spec: the Remote Gateway of section 6, abstracting
services/apiService which is not under src/.  postOk tells whether
postDataToSheet succeeds for a given mutation; fetch* is the result of
fetchRemoteSheetData for one collection, none meaning the fetch fails. -/
structure Gateway where
  postOk : SheetName → SyncAction → AppItem → Bool
  fetchProducts : Option (List Product)
  fetchSales : Option (List Sale)
  fetchExpenses : Option (List Expense)
  fetchCustomers : Option (List Customer)

def SheetName.str : SheetName → String
  | SheetName.Products => "Products"
  | SheetName.Sales => "Sales"
  | SheetName.Expenses => "Expenses"
  | SheetName.Customers => "Customers"

def SyncAction.str : SyncAction → String
  | SyncAction.ADD => "ADD"
  | SyncAction.UPDATE => "UPDATE"
  | SyncAction.DELETE => "DELETE"

/-- The per-item drain failure message of handleSync (line 137). -/
def syncItemFailMsg (a : SyncAction) (sh : SheetName) : String :=
  "فشل مزامنة عنصر (" ++ a.str ++ ") في " ++ sh.str ++ ". يرجى المحاولة لاحقاً."

/-- The fetch failure warning message of handleSync (line 188). -/
def fetchFailMsg : String :=
  "فشل جلب بعض البيانات من الخادم. تأكد من اتصال الإنترنت."

/-- The queue drain loop of handleSync (lines 128-140): iterate over the
snapshot taken at pass start; a delivered entry is removed from the queue by
id, a failed delivery leaves the entry queued, appends an error notification,
and the loop continues with the next entry. -/
def processQueue (gw : Gateway) :
    List SyncQueueItem → List SyncQueueItem → List AppNotification →
    List SyncQueueItem × List AppNotification
  | [], q, ns => (q, ns)
  | item :: rest, q, ns =>
    if gw.postOk item.sheet item.action item.payload then
      processQueue gw rest (removeFromQueue item.id q) ns
    else
      processQueue gw rest q (ns ++ [⟨NotifKind.error, syncItemFailMsg item.action item.sheet⟩])

/-- One syncSheet call of handleSync (lines 152-166): fetch the collection;
on success overwrite the in-memory and stored copies wholesale; on failure
leave both untouched and record the fetch error. -/
def pullSheet (gw : Gateway) (name : SheetName) (acc : AppState × Bool) : AppState × Bool :=
  match name with
  | SheetName.Products =>
    match gw.fetchProducts with
    | some d => ({ acc.1 with products := d, storedProducts := d }, acc.2)
    | none => (acc.1, true)
  | SheetName.Sales =>
    match gw.fetchSales with
    | some d => ({ acc.1 with sales := d, storedSales := d }, acc.2)
    | none => (acc.1, true)
  | SheetName.Expenses =>
    match gw.fetchExpenses with
    | some d => ({ acc.1 with expenses := d, storedExpenses := d }, acc.2)
    | none => (acc.1, true)
  | SheetName.Customers =>
    match gw.fetchCustomers with
    | some d => ({ acc.1 with customers := d, storedCustomers := d }, acc.2)
    | none => (acc.1, true)

/-- The fixed sheetDefinitions order of handleSync (lines 171-185): the four
sheets are pulled in a fixed order, each only if targeted; the pacing delays
between fetches have no state effect. -/
def pullPhase (gw : Gateway) (sheets : List SheetName) (s : AppState) : AppState × Bool :=
  let a0 : AppState × Bool := (s, false)
  let a1 := if SheetName.Products ∈ sheets then pullSheet gw SheetName.Products a0 else a0
  let a2 := if SheetName.Sales ∈ sheets then pullSheet gw SheetName.Sales a1 else a1
  let a3 := if SheetName.Expenses ∈ sheets then pullSheet gw SheetName.Expenses a2 else a2
  if SheetName.Customers ∈ sheets then pullSheet gw SheetName.Customers a3 else a3

/-- The default target list `targetSheets || [Products, Sales, Expenses,
Customers]` of handleSync (line 169). -/
def allSheets : List SheetName :=
  [SheetName.Products, SheetName.Sales, SheetName.Expenses, SheetName.Customers]

/-- handleSync (src/unnamed/part_000 lines 118-199).  Returns immediately when
navigator.onLine is false, or when already SYNCING and not forced.  Otherwise:
enter SYNCING, reset the success toast, drain the queue snapshot, refresh
queueCount (only when the snapshot was nonempty, as in the source), pull the
targeted sheets in the fixed order, append a warning when some fetch failed,
set status back to ONLINE, and show the success toast when no fetch failed. -/
def handleSync (gw : Gateway) (force : Bool) (targets : Option (List SheetName))
    (s : AppState) : AppState :=
  if s.online = false then s
  else if s.status = NetworkStatus.SYNCING ∧ force = false then s
  else
    let s1 : AppState := { s with status := NetworkStatus.SYNCING, showSyncSuccess := false }
    let s2 : AppState :=
      if 0 < s1.queue.length then
        let r := processQueue gw s1.queue s1.queue s1.notifs
        { s1 with queue := r.1, notifs := r.2, queueCount := r.1.length }
      else s1
    let r2 := pullPhase gw (targets.getD allSheets) s2
    let s4 : AppState :=
      if r2.2 then { r2.1 with notifs := r2.1.notifs ++ [⟨NotifKind.warning, fetchFailMsg⟩] }
      else r2.1
    let s5 : AppState := { s4 with status := NetworkStatus.ONLINE }
    if r2.2 then s5 else { s5 with showSyncSuccess := true }

/-- The online listener of the network monitor (lines 219-227): set status to
ONLINE and register the 3000ms deferred callback. -/
def handleOnline (s : AppState) : AppState :=
  { s with status := NetworkStatus.ONLINE, deferredOnlineCb := true }

/-- The body of the setTimeout callback registered by the online listener
(lines 222-226): call handleSync only when the isInitialized ref is still
false. -/
def runDeferredOnlineCb (gw : Gateway) (s : AppState) : AppState :=
  if s.isInitialized = false then handleSync gw false none s else s

/-- The offline listener (line 228). -/
def handleOffline (s : AppState) : AppState :=
  { s with status := NetworkStatus.OFFLINE }

/-- The form data handed to handleSaveItem by InputModal for the Customers tab
(InputModal is not under src/; the fields are those the component reads or
merges).  Option models a field the form leaves out or undefined. -/
structure CustomerForm where
  Name : Option String
  Phone : Option String
  Address : Option String
  TotalPurchases : Option Int
deriving DecidableEq, Repr

/-- handleSaveItem (src/unnamed/part_000 lines 266-362) instantiated at
activeTab = Customers, the instantiation the Email/Address mapping claim is
about.  The update branch merges the form data over editingItem, ensures the
uppercase ID, stamps ModifiedAt, overrides Email with
`data.Address || updatedItem.Address`, replaces the record through
updateLocalItem and enqueues an UPDATE entry.  The add branch builds a fresh
record with id = ID = newId, maps data.Address into Email, stamps LastPurchase,
prepends to the in-memory collection, persists it and enqueues an ADD entry. -/
def handleSaveItemCustomers (editing : Option Customer) (d : CustomerForm)
    (newId : String) (ts : Nat) (nowIso : String) (nowFmt : String)
    (s : AppState) : AppState :=
  match editing with
  | some c =>
    let merged : Customer :=
      { id := c.id
        ID := some (orElseStr c.ID c.id)
        timestamp := c.timestamp
        ModifiedAt := some nowIso
        Name := d.Name.getD c.Name
        Email := orElseStr d.Address (d.Address.getD c.Address)
        Phone := d.Phone.getD c.Phone
        Address := d.Address.getD c.Address
        TotalPurchases := d.TotalPurchases.getD c.TotalPurchases
        LastPurchase := c.LastPurchase }
    let l := updateLocalItem (fun x => x.id) merged s.storedCustomers
    let q := addToSyncQueue
      ⟨merged.id, SyncAction.UPDATE, SheetName.Customers, AppItem.customer merged, ts⟩ s.queue
    { s with customers := l, storedCustomers := l, queue := q, queueCount := q.length }
  | none =>
    let newC : Customer :=
      { id := newId
        ID := some newId
        timestamp := ts
        ModifiedAt := none
        Name := d.Name.getD ""
        Email := d.Address.getD ""
        Phone := d.Phone.getD ""
        Address := d.Address.getD ""
        TotalPurchases := d.TotalPurchases.getD 0
        LastPurchase := some nowFmt }
    let l := newC :: s.customers
    let q := addToSyncQueue
      ⟨newId, SyncAction.ADD, SheetName.Customers, AppItem.customer newC, ts⟩ s.queue
    { s with customers := l, storedCustomers := l, queue := q, queueCount := q.length }

/-- The sale data handed to handleSaleSubmit by SaleModal (not under src/):
the Sale fields the component spreads into the new Sale record. -/
structure SaleInput where
  ProductName : String
  Quantity : Int
  Price : Int
  Total : Int
  Customer : String
  Status : SaleStatus
  InvoiceNumber : String
  CustomerPhone : Option String
  CustomerAddress : Option String
deriving DecidableEq, Repr

/-- Modelled from the spec: the customer contact data handed to
handleSaleSubmit by SaleModal, which is not under src/.  Per section 4.2(c) it
carries the contact data for the sale; per the section 8 scenario (totals 50
then 30 accumulate to 80) the modal passes the sale total as the initial
cumulative purchase total of a newly created customer. -/
structure CustomerInput where
  Name : String
  Phone : String
  Address : String
  TotalPurchases : Int
deriving DecidableEq, Repr

/-- The new Sale record built by handleSaleSubmit (lines 371-377): id = ID =
the timestamp string, the sale form fields spread in, and the formatted Date
stamped. -/
def mkNewSale (sd : SaleInput) (ts : Nat) (now : String) : Sale :=
  { id := toString ts
    ID := some (toString ts)
    timestamp := ts
    ModifiedAt := none
    ProductName := sd.ProductName
    Quantity := sd.Quantity
    Price := sd.Price
    Total := sd.Total
    Customer := sd.Customer
    Status := sd.Status
    InvoiceNumber := sd.InvoiceNumber
    CustomerPhone := sd.CustomerPhone
    CustomerAddress := sd.CustomerAddress
    Date := some now }

/-- Step 1 of handleSaleSubmit (lines 370-389): prepend the new Sale to the
in-memory sales, persist the list, and enqueue an ADD entry. -/
def saleStep1 (sd : SaleInput) (ts : Nat) (now : String) (s : AppState) : AppState :=
  let newSale := mkNewSale sd ts now
  let l := newSale :: s.sales
  let q := addToSyncQueue
    ⟨newSale.id, SyncAction.ADD, SheetName.Sales, AppItem.sale newSale, ts⟩ s.queue
  { s with sales := l, storedSales := l, queue := q }

/-- Step 2 of handleSaleSubmit (lines 391-412): find the first product whose
Name matches, clamp its stock at zero with max(0, Stock - Quantity), ensure ID,
stamp ModifiedAt, replace it through updateLocalItem and enqueue an UPDATE
entry; when no product matches, do nothing. -/
def saleUpdatedProduct (sd : SaleInput) (nowIso : String) (p : Product) : Product :=
  { p with
    Stock := max 0 (p.Stock - sd.Quantity)
    ID := some (orElseStr p.ID p.id)
    ModifiedAt := some nowIso }

def saleStep2 (sd : SaleInput) (ts : Nat) (nowIso : String) (s : AppState) : AppState :=
  match s.products.find? (fun p => decide (p.Name = sd.ProductName)) with
  | some p =>
    let upd := saleUpdatedProduct sd nowIso p
    let l := updateLocalItem (fun x => x.id) upd s.storedProducts
    let q := addToSyncQueue
      ⟨upd.id, SyncAction.UPDATE, SheetName.Products, AppItem.product upd, ts + 2⟩ s.queue
    { s with products := l, storedProducts := l, queue := q }
  | none => s

/-- Step 3 of handleSaleSubmit (lines 414-464): find a customer by phone.  If
found, add the sale total to TotalPurchases (the `|| 0` guard of the source
collapses on a total Int field), refresh Address and the mapped Email with
`customerData.Address || existing.Address`, refresh LastPurchase, ensure ID,
stamp ModifiedAt, replace through updateLocalItem and enqueue an UPDATE entry.
If not found, build a new customer with id = ID = the (timestamp + 1) string,
map Address into Email, stamp LastPurchase, prepend to the in-memory
collection, persist, and enqueue an ADD entry. -/
def saleUpdatedCustomer (sd : SaleInput) (cd : CustomerInput) (now nowIso : String)
    (c : Customer) : Customer :=
  { c with
    TotalPurchases := c.TotalPurchases + sd.Total
    Address := strOr cd.Address c.Address
    Email := strOr cd.Address c.Address
    LastPurchase := some now
    ID := some (orElseStr c.ID c.id)
    ModifiedAt := some nowIso }

def saleNewCustomer (cd : CustomerInput) (ts : Nat) (now : String) : Customer :=
  { id := toString (ts + 1)
    ID := some (toString (ts + 1))
    timestamp := ts + 1
    ModifiedAt := none
    Name := cd.Name
    Email := cd.Address
    Phone := cd.Phone
    Address := cd.Address
    TotalPurchases := cd.TotalPurchases
    LastPurchase := some now }

def saleStep3 (sd : SaleInput) (cd : CustomerInput) (ts : Nat) (now : String)
    (nowIso : String) (s : AppState) : AppState :=
  match s.customers.find? (fun c => decide (c.Phone = cd.Phone)) with
  | some c =>
    let upd := saleUpdatedCustomer sd cd now nowIso c
    let l := updateLocalItem (fun x => x.id) upd s.storedCustomers
    let q := addToSyncQueue
      ⟨upd.id, SyncAction.UPDATE, SheetName.Customers, AppItem.customer upd, ts + 1⟩ s.queue
    { s with customers := l, storedCustomers := l, queue := q }
  | none =>
    let newC := saleNewCustomer cd ts now
    let cid := newC.id
    let l := newC :: s.customers
    let q := addToSyncQueue
      ⟨cid, SyncAction.ADD, SheetName.Customers, AppItem.customer newC, ts + 1⟩ s.queue
    { s with customers := l, storedCustomers := l, queue := q }

/-- handleSaleSubmit (src/unnamed/part_000 lines 364-472): the three applier
steps in order, then the queueCount refresh from the persisted queue; the
deferred post-sale sync is a separate setTimeout and not part of this
function. -/
def handleSaleSubmit (sd : SaleInput) (cd : CustomerInput) (ts : Nat) (now : String)
    (nowIso : String) (s : AppState) : AppState :=
  let s3 := saleStep3 sd cd ts now nowIso (saleStep2 sd ts nowIso (saleStep1 sd ts now s))
  { s3 with queueCount := s3.queue.length }

/-- The payload built by queueDelete inside executeDelete (line 491):
the record itself with the uppercase ID ensured via `ID || id`. -/
def deletePayload : AppItem → AppItem
  | AppItem.product p => AppItem.product { p with ID := some (orElseStr p.ID p.id) }
  | AppItem.sale x => AppItem.sale { x with ID := some (orElseStr x.ID x.id) }
  | AppItem.expense x => AppItem.expense { x with ID := some (orElseStr x.ID x.id) }
  | AppItem.customer x => AppItem.customer { x with ID := some (orElseStr x.ID x.id) }

/-- The record with the given id in the in-memory collection of a sheet,
wrapped as an AppItem. -/
def memFind (s : AppState) (sh : SheetName) (i : String) : Option AppItem :=
  match sh with
  | SheetName.Products => (s.products.find? (fun x => decide (x.id = i))).map AppItem.product
  | SheetName.Sales => (s.sales.find? (fun x => decide (x.id = i))).map AppItem.sale
  | SheetName.Expenses => (s.expenses.find? (fun x => decide (x.id = i))).map AppItem.expense
  | SheetName.Customers => (s.customers.find? (fun x => decide (x.id = i))).map AppItem.customer

/-- The record with the given id in the stored (durable) collection of a
sheet, wrapped as an AppItem. -/
def storedFind (s : AppState) (sh : SheetName) (i : String) : Option AppItem :=
  match sh with
  | SheetName.Products =>
    (s.storedProducts.find? (fun x => decide (x.id = i))).map AppItem.product
  | SheetName.Sales =>
    (s.storedSales.find? (fun x => decide (x.id = i))).map AppItem.sale
  | SheetName.Expenses =>
    (s.storedExpenses.find? (fun x => decide (x.id = i))).map AppItem.expense
  | SheetName.Customers =>
    (s.storedCustomers.find? (fun x => decide (x.id = i))).map AppItem.customer

/-- executeDelete (src/unnamed/part_000 lines 479-527).  The guard
`if (!id || !sheet) return` is the empty-id check; queueDelete finds the
record by id, enqueues a DELETE entry carrying the pre-deletion record (ID
ensured), and the filtered list replaces both the in-memory and the stored
collection.  The deferred post-delete sync is a separate setTimeout and not
part of this function. -/
def executeDelete (i : String) (sh : SheetName) (ts : Nat) (s : AppState) : AppState :=
  if i = "" then s
  else
    match sh with
    | SheetName.Products =>
      let q := match s.products.find? (fun x => decide (x.id = i)) with
        | some it => addToSyncQueue
            ⟨it.id, SyncAction.DELETE, SheetName.Products,
              deletePayload (AppItem.product it), ts⟩ s.queue
        | none => s.queue
      let l := s.products.filter (fun x => !(decide (x.id = i)))
      { s with products := l, storedProducts := l, queue := q, queueCount := q.length }
    | SheetName.Sales =>
      let q := match s.sales.find? (fun x => decide (x.id = i)) with
        | some it => addToSyncQueue
            ⟨it.id, SyncAction.DELETE, SheetName.Sales,
              deletePayload (AppItem.sale it), ts⟩ s.queue
        | none => s.queue
      let l := s.sales.filter (fun x => !(decide (x.id = i)))
      { s with sales := l, storedSales := l, queue := q, queueCount := q.length }
    | SheetName.Expenses =>
      let q := match s.expenses.find? (fun x => decide (x.id = i)) with
        | some it => addToSyncQueue
            ⟨it.id, SyncAction.DELETE, SheetName.Expenses,
              deletePayload (AppItem.expense it), ts⟩ s.queue
        | none => s.queue
      let l := s.expenses.filter (fun x => !(decide (x.id = i)))
      { s with expenses := l, storedExpenses := l, queue := q, queueCount := q.length }
    | SheetName.Customers =>
      let q := match s.customers.find? (fun x => decide (x.id = i)) with
        | some it => addToSyncQueue
            ⟨it.id, SyncAction.DELETE, SheetName.Customers,
              deletePayload (AppItem.customer it), ts⟩ s.queue
        | none => s.queue
      let l := s.customers.filter (fun x => !(decide (x.id = i)))
      { s with customers := l, storedCustomers := l, queue := q, queueCount := q.length }

/-- A whole sequence of enqueues starting from the empty queue. -/
def enqueueAll (ops : List SyncQueueItem) : List SyncQueueItem :=
  ops.foldl (fun q i => addToSyncQueue i q) []

/-- Whether a queue entry survives the drain of a given snapshot: it is
removed as soon as some delivered snapshot entry shares its id. -/
def survives (gw : Gateway) (snapshot : List SyncQueueItem) (e : SyncQueueItem) : Bool :=
  snapshot.all (fun i => !(gw.postOk i.sheet i.action i.payload) || !(decide (e.id = i.id)))

/-- A concrete product used by the concrete instantiations below. -/
def oneProduct : Product :=
  { id := "1"
    ID := some "1"
    timestamp := 0
    ModifiedAt := none
    Name := "Bread"
    Category := "Food"
    Price := 5
    Cost := 3
    Stock := 10
    Description := ""
    Image := "" }

/-- A concrete pending queue entry. -/
def qEntry : SyncQueueItem :=
  ⟨"9", SyncAction.ADD, SheetName.Products, AppItem.product oneProduct, 5⟩

/-- A concrete customer with phone 0600000000 and cumulative purchases 50. -/
def oneCustomer : Customer :=
  { id := "7"
    ID := some "7"
    timestamp := 0
    ModifiedAt := none
    Name := "Sam"
    Email := "rue 5"
    Phone := "0600000000"
    Address := "rue 5"
    TotalPurchases := 50
    LastPurchase := some "01/01/2026 10:00:00" }

/-- A concrete empty offline state. -/
def blankState : AppState :=
  { online := false
    status := NetworkStatus.OFFLINE
    isInitialized := false
    deferredOnlineCb := false
    products := []
    sales := []
    expenses := []
    customers := []
    storedProducts := []
    storedSales := []
    storedExpenses := []
    storedCustomers := []
    queue := []
    queueCount := 0
    notifs := []
    showSyncSuccess := false }

/-- A concrete online state with one pending queue entry. -/
def busyState : AppState :=
  { blankState with
    online := true
    status := NetworkStatus.ONLINE
    isInitialized := true
    queue := [qEntry]
    queueCount := 1 }

/-- A concrete already-initialized state at the moment the browser online
event fires (navigator.onLine already true, status still OFFLINE). -/
def initState : AppState :=
  { blankState with online := true, isInitialized := true }

/-- A concrete online state holding one product and one customer. -/
def demoState : AppState :=
  { blankState with
    online := true
    status := NetworkStatus.ONLINE
    products := [oneProduct]
    storedProducts := [oneProduct]
    customers := [oneCustomer]
    storedCustomers := [oneCustomer] }

/-- A gateway whose every delivery and every fetch succeeds with empty data. -/
def trivialGateway : Gateway :=
  ⟨fun _ _ _ => true, some [], some [], some [], some []⟩

/-- A gateway whose every delivery succeeds and whose Products fetch returns
one product. -/
def fetchingGateway : Gateway :=
  ⟨fun _ _ _ => true, some [oneProduct], some [], some [], some []⟩

/-- A gateway whose every delivery fails and whose Sales fetch fails while the
other fetches succeed. -/
def mixedGateway : Gateway :=
  ⟨fun _ _ _ => false, some [oneProduct], none, some [], some []⟩

/-- A concrete sale of 3 Bread for a total of 30. -/
def demoSale3 : SaleInput :=
  { ProductName := "Bread"
    Quantity := 3
    Price := 10
    Total := 30
    Customer := "Sam"
    Status := SaleStatus.Paid
    InvoiceNumber := "INV1"
    CustomerPhone := some "0600000000"
    CustomerAddress := some "rue 5" }

/-- A concrete sale of 20 Bread, more than the stock of oneProduct. -/
def demoSale20 : SaleInput :=
  { demoSale3 with Quantity := 20, Total := 200 }

/-- Concrete customer contact data with phone 0600000000 and sale total 30. -/
def demoCust : CustomerInput :=
  { Name := "Sam", Phone := "0600000000", Address := "rue 5", TotalPurchases := 30 }

/-- Concrete customer form data changing the address. -/
def demoForm : CustomerForm :=
  { Name := some "Sam", Phone := some "0600000000", Address := some "rue 6",
    TotalPurchases := none }

/-- A concrete first sale with total 50. -/
def demoSale50 : SaleInput :=
  { demoSale3 with Quantity := 5, Total := 50 }

/-- Concrete customer contact data carrying the first sale total 50. -/
def demoCust50 : CustomerInput :=
  { demoCust with TotalPurchases := 50 }

/-- A concrete empty online state. -/
def onlineEmptyState : AppState :=
  { blankState with online := true, status := NetworkStatus.ONLINE }

/-- The state after recording the first (total 50) sale on the empty state:
it holds the newly created customer. -/
def afterFirstSale : AppState :=
  handleSaleSubmit demoSale50 demoCust50 100 "02/01/2026 10:00:00" "iso1" onlineEmptyState

/-- The customer the first sale creates (id is the first sale timestamp + 1). -/
def firstSaleCustomer : Customer :=
  { id := "101"
    ID := some "101"
    timestamp := 101
    ModifiedAt := none
    Name := "Sam"
    Email := "rue 5"
    Phone := "0600000000"
    Address := "rue 5"
    TotalPurchases := 50
    LastPurchase := some "02/01/2026 10:00:00" }

theorem sameKey_eq_true {sh : SheetName} {i : String} {e : SyncQueueItem} :
    sameKey sh i e = true ↔ e.sheet = sh ∧ e.id = i := by
  simp [sameKey]

theorem sameKey_eq_false {sh : SheetName} {i : String} {e : SyncQueueItem} :
    sameKey sh i e = false ↔ ¬(e.sheet = sh ∧ e.id = i) := by
  simp [sameKey]

/-- An enqueue leaves exactly the new entry under its own key, and the entries
under every other key untouched. -/
theorem filterKey_add (sh : SheetName) (i : String) (e : SyncQueueItem)
    (q : List SyncQueueItem) :
    filterKey sh i (addToSyncQueue e q) =
      if e.sheet = sh ∧ e.id = i then [e] else filterKey sh i q := by
  by_cases h : e.sheet = sh ∧ e.id = i
  · rw [if_pos h]
    unfold filterKey addToSyncQueue
    rw [List.filter_append, List.filter_filter]
    have hnil : q.filter (fun a => sameKey sh i a && !sameKey e.sheet e.id a) = [] := by
      rw [List.filter_eq_nil_iff]
      intro a _ hcontra
      rw [Bool.and_eq_true] at hcontra
      obtain ⟨hand, hneg⟩ := hcontra
      obtain ⟨has, hai⟩ := sameKey_eq_true.mp hand
      have hsk : sameKey e.sheet e.id a = true :=
        sameKey_eq_true.mpr ⟨has.trans h.1.symm, hai.trans h.2.symm⟩
      rw [hsk] at hneg
      simp at hneg
    rw [hnil]
    have he : sameKey sh i e = true := sameKey_eq_true.mpr h
    simp [List.filter_cons, he]
  · rw [if_neg h]
    unfold filterKey addToSyncQueue
    rw [List.filter_append, List.filter_filter]
    have hstep : q.filter (fun a => sameKey sh i a && !sameKey e.sheet e.id a) =
        q.filter (sameKey sh i) := by
      apply List.filter_congr
      intro x _
      cases hx : sameKey sh i x
      · simp
      · obtain ⟨hxs, hxi⟩ := sameKey_eq_true.mp hx
        have hxe : sameKey e.sheet e.id x = false :=
          sameKey_eq_false.mpr (fun hc => h ⟨hc.1.symm.trans hxs, hc.2.symm.trans hxi⟩)
        simp [hxe]
    rw [hstep]
    have he : sameKey sh i e = false := sameKey_eq_false.mpr h
    simp [List.filter_cons, he]

/-- The queue built by a whole sequence of enqueues holds, under each key,
exactly the last entry enqueued for that key. -/
theorem enqueueAll_filterKey (sh : SheetName) (i : String) (ops : List SyncQueueItem) :
    filterKey sh i (enqueueAll ops) = ((ops.filter (sameKey sh i)).getLast?).toList := by
  induction ops using List.reverseRecOn with
  | nil => simp [enqueueAll, filterKey]
  | append_singleton ops e ih =>
    have hfold : enqueueAll (ops ++ [e]) = addToSyncQueue e (enqueueAll ops) := by
      simp [enqueueAll, List.foldl_append]
    rw [hfold, filterKey_add]
    by_cases h : e.sheet = sh ∧ e.id = i
    · rw [if_pos h]
      have he : sameKey sh i e = true := sameKey_eq_true.mpr h
      have : (ops ++ [e]).filter (sameKey sh i) = ops.filter (sameKey sh i) ++ [e] := by
        rw [List.filter_append]
        simp [List.filter_cons, he]
      rw [this, List.getLast?_concat]
      rfl
    · rw [if_neg h, ih]
      have he : sameKey sh i e = false := sameKey_eq_false.mpr h
      have : (ops ++ [e]).filter (sameKey sh i) = ops.filter (sameKey sh i) := by
        rw [List.filter_append]
        simp [List.filter_cons, he]
      rw [this]

/-- The drain loop removes from the working queue exactly the entries whose id
matches some delivered snapshot entry. -/
theorem processQueue_fst (gw : Gateway) : ∀ (snapshot q : List SyncQueueItem)
    (ns : List AppNotification),
    (processQueue gw snapshot q ns).1 = q.filter (survives gw snapshot) := by
  intro snapshot
  induction snapshot with
  | nil =>
    intro q ns
    simp only [processQueue]
    exact (List.filter_eq_self.mpr (fun a _ => rfl)).symm
  | cons it rest ih =>
    intro q ns
    unfold processQueue
    by_cases hp : gw.postOk it.sheet it.action it.payload = true
    · rw [if_pos hp, ih]
      unfold removeFromQueue
      rw [List.filter_filter]
      apply List.filter_congr
      intro x _
      simp only [survives, List.all_cons, hp, Bool.not_true, Bool.false_or]
      exact Bool.and_comm _ _
    · rw [if_neg hp, ih]
      apply List.filter_congr
      intro x _
      have hp' : gw.postOk it.sheet it.action it.payload = false :=
        Bool.eq_false_iff.mpr hp
      simp [survives, List.all_cons, hp']

/-- When every delivery succeeds, draining the snapshot against itself empties
the queue. -/
theorem drained_empty (gw : Gateway) (q : List SyncQueueItem)
    (hall : ∀ i ∈ q, gw.postOk i.sheet i.action i.payload = true) :
    q.filter (survives gw q) = [] := by
  rw [List.filter_eq_nil_iff]
  intro e he hsurv
  have hcomp := (List.all_eq_true.mp hsurv) e he
  rw [hall e he] at hcomp
  simp at hcomp

/-- Closed form of the pull phase over the default all-sheets target list. -/
theorem pullPhase_all4 (gw : Gateway) (s : AppState) :
    pullPhase gw allSheets s =
      ({ s with
          products := gw.fetchProducts.getD s.products
          storedProducts := gw.fetchProducts.getD s.storedProducts
          sales := gw.fetchSales.getD s.sales
          storedSales := gw.fetchSales.getD s.storedSales
          expenses := gw.fetchExpenses.getD s.expenses
          storedExpenses := gw.fetchExpenses.getD s.storedExpenses
          customers := gw.fetchCustomers.getD s.customers
          storedCustomers := gw.fetchCustomers.getD s.storedCustomers },
        (gw.fetchProducts.isNone || gw.fetchSales.isNone ||
          gw.fetchExpenses.isNone || gw.fetchCustomers.isNone)) := by
  have m1 : SheetName.Products ∈ allSheets := by decide
  have m2 : SheetName.Sales ∈ allSheets := by decide
  have m3 : SheetName.Expenses ∈ allSheets := by decide
  have m4 : SheetName.Customers ∈ allSheets := by decide
  cases hP : gw.fetchProducts <;> cases hS : gw.fetchSales <;>
    cases hE : gw.fetchExpenses <;> cases hC : gw.fetchCustomers <;>
      simp [pullPhase, pullSheet, m1, m2, m3, m4, hP, hS, hE, hC]

/-- Closed form of a sync pass over the default targets once both early-return
guards are passed. -/
theorem handleSync_none_eq (gw : Gateway) (force : Bool) (s : AppState)
    (hon : s.online = true) (hg : s.status = NetworkStatus.SYNCING → force = true) :
    handleSync gw force none s =
      let dq := s.queue.filter (survives gw s.queue)
      let dns := (processQueue gw s.queue s.queue s.notifs).2
      let err := gw.fetchProducts.isNone || gw.fetchSales.isNone ||
        gw.fetchExpenses.isNone || gw.fetchCustomers.isNone
      { s with
        status := NetworkStatus.ONLINE
        showSyncSuccess := !err
        queue := dq
        queueCount := if 0 < s.queue.length then dq.length else s.queueCount
        notifs := if err then dns ++ [⟨NotifKind.warning, fetchFailMsg⟩] else dns
        products := gw.fetchProducts.getD s.products
        storedProducts := gw.fetchProducts.getD s.storedProducts
        sales := gw.fetchSales.getD s.sales
        storedSales := gw.fetchSales.getD s.storedSales
        expenses := gw.fetchExpenses.getD s.expenses
        storedExpenses := gw.fetchExpenses.getD s.storedExpenses
        customers := gw.fetchCustomers.getD s.customers
        storedCustomers := gw.fetchCustomers.getD s.storedCustomers } := by
  have hcond : ¬(s.status = NetworkStatus.SYNCING ∧ force = false) := by
    rintro ⟨h1, h2⟩
    rw [hg h1] at h2
    exact Bool.noConfusion h2
  have hr1 : (processQueue gw s.queue s.queue s.notifs).1 =
      s.queue.filter (survives gw s.queue) := processQueue_fst gw s.queue s.queue s.notifs
  by_cases hq : 0 < s.queue.length
  · cases hP : gw.fetchProducts <;> cases hS : gw.fetchSales <;>
      cases hE : gw.fetchExpenses <;> cases hC : gw.fetchCustomers <;>
        simp [handleSync, hon, hcond, hq, hr1, pullPhase_all4, hP, hS, hE, hC]
  · have hnil : s.queue = [] := List.length_eq_zero.mp (Nat.eq_zero_of_not_pos hq)
    cases hP : gw.fetchProducts <;> cases hS : gw.fetchSales <;>
      cases hE : gw.fetchExpenses <;> cases hC : gw.fetchCustomers <;>
        simp [handleSync, hon, hcond, hq, hnil, pullPhase_all4, hP, hS, hE, hC, processQueue]

theorem saleStep1_products (sd : SaleInput) (ts : Nat) (now : String) (s : AppState) :
    (saleStep1 sd ts now s).products = s.products := rfl

theorem saleStep1_storedProducts (sd : SaleInput) (ts : Nat) (now : String) (s : AppState) :
    (saleStep1 sd ts now s).storedProducts = s.storedProducts := rfl

theorem saleStep1_customers (sd : SaleInput) (ts : Nat) (now : String) (s : AppState) :
    (saleStep1 sd ts now s).customers = s.customers := rfl

theorem saleStep1_storedCustomers (sd : SaleInput) (ts : Nat) (now : String) (s : AppState) :
    (saleStep1 sd ts now s).storedCustomers = s.storedCustomers := rfl

theorem saleStep2_customers (sd : SaleInput) (ts : Nat) (nowIso : String) (s : AppState) :
    (saleStep2 sd ts nowIso s).customers = s.customers := by
  unfold saleStep2
  cases s.products.find? (fun p => decide (p.Name = sd.ProductName)) <;> rfl

theorem saleStep2_storedCustomers (sd : SaleInput) (ts : Nat) (nowIso : String) (s : AppState) :
    (saleStep2 sd ts nowIso s).storedCustomers = s.storedCustomers := by
  unfold saleStep2
  cases s.products.find? (fun p => decide (p.Name = sd.ProductName)) <;> rfl

theorem saleStep2_sales (sd : SaleInput) (ts : Nat) (nowIso : String) (s : AppState) :
    (saleStep2 sd ts nowIso s).sales = s.sales := by
  unfold saleStep2
  cases s.products.find? (fun p => decide (p.Name = sd.ProductName)) <;> rfl

theorem saleStep3_products (sd : SaleInput) (cd : CustomerInput) (ts : Nat)
    (now nowIso : String) (s : AppState) :
    (saleStep3 sd cd ts now nowIso s).products = s.products := by
  unfold saleStep3
  cases s.customers.find? (fun c => decide (c.Phone = cd.Phone)) <;> rfl

theorem saleStep3_storedProducts (sd : SaleInput) (cd : CustomerInput) (ts : Nat)
    (now nowIso : String) (s : AppState) :
    (saleStep3 sd cd ts now nowIso s).storedProducts = s.storedProducts := by
  unfold saleStep3
  cases s.customers.find? (fun c => decide (c.Phone = cd.Phone)) <;> rfl

theorem saleStep3_sales (sd : SaleInput) (cd : CustomerInput) (ts : Nat)
    (now nowIso : String) (s : AppState) :
    (saleStep3 sd cd ts now nowIso s).sales = s.sales := by
  unfold saleStep3
  cases s.customers.find? (fun c => decide (c.Phone = cd.Phone)) <;> rfl

/-- C1: for every sequence of enqueue operations starting from the empty
queue, the resulting mutation queue holds at most one entry per
(collection, id) key, and the entry under a key equals — payload, action and
all — the most recent enqueue for that key: a later enqueue for an
already-queued key replaces the earlier entry instead of appending a
duplicate. -/
theorem enqueue_latest_wins (ops : List SyncQueueItem) (sh : SheetName) (i : String) :
    (filterKey sh i (enqueueAll ops)).length ≤ 1 ∧
    filterKey sh i (enqueueAll ops) = ((ops.filter (sameKey sh i)).getLast?).toList := by
  refine ⟨?_, enqueueAll_filterKey sh i ops⟩
  rw [enqueueAll_filterKey sh i ops]
  cases (ops.filter (sameKey sh i)).getLast? <;> simp

/-- C4: whenever a sync pass actually begins (the connectivity guard and the
SYNCING re-entrancy guard are both passed, so the state is set to SYNCING),
handleSync terminates with status ONLINE, for every gateway, force flag and
target list — delivery or fetch failures included. -/
theorem syncing_always_resolves_online (gw : Gateway) (force : Bool)
    (targets : Option (List SheetName)) (s : AppState)
    (hon : s.online = true) (hg : s.status = NetworkStatus.SYNCING → force = true) :
    (handleSync gw force targets s).status = NetworkStatus.ONLINE := by
  have hcond : ¬(s.status = NetworkStatus.SYNCING ∧ force = false) := by
    rintro ⟨h1, h2⟩
    rw [hg h1] at h2
    exact Bool.noConfusion h2
  simp only [handleSync, hon]
  rw [if_neg (by simp : ¬(true = false)), if_neg hcond]
  split <;> split <;> rfl

/-- Witness for C4 at a concrete state and gateway. -/
theorem syncing_always_resolves_online_witness :
    (handleSync trivialGateway true none busyState).status = NetworkStatus.ONLINE :=
  syncing_always_resolves_online trivialGateway true none busyState rfl (fun _ => rfl)

/-- C10: when navigator.onLine is false, handleSync — forced or not, whatever
the targets — returns the state unchanged: status, queue, all in-memory and
stored collections and the notification list are untouched, and the result
does not depend on the gateway at all. -/
theorem offline_sync_is_noop (gw : Gateway) (force : Bool)
    (targets : Option (List SheetName)) (s : AppState) (hoff : s.online = false) :
    handleSync gw force targets s = s := by
  unfold handleSync
  rw [hoff]
  simp

/-- Witness for C10 at a concrete offline state and gateway. -/
theorem offline_sync_is_noop_witness :
    blankState.online = false ∧ handleSync fetchingGateway true none blankState = blankState :=
  ⟨rfl, offline_sync_is_noop fetchingGateway true none blankState rfl⟩

/-- C9 (amended): every connectivity-restored signal sets the status to
ONLINE and registers the 3000ms deferred callback, but the callback performs
a sync attempt only when app initialization has not run yet (the isInitialized
ref is still false); in an already-initialized app the deferred callback
leaves the state untouched. -/
theorem online_signal_sets_online_and_defers (s : AppState) (gw : Gateway) :
    (handleOnline s).status = NetworkStatus.ONLINE ∧
    (handleOnline s).deferredOnlineCb = true ∧
    runDeferredOnlineCb gw s = (if s.isInitialized then s else handleSync gw false none s) := by
  refine ⟨rfl, rfl, ?_⟩
  unfold runDeferredOnlineCb
  cases h : s.isInitialized <;> simp [h]

/-- C2: from every starting state that passes the sync guards, a complete
drain-then-pull pass over the default all-four targets against a gateway
whose every delivery and every fetch succeeds terminates with the mutation
queue empty, status ONLINE, and each in-memory and stored collection equal to
the list the gateway returned for it. -/
theorem sync_success_drains_and_pulls (gw : Gateway) (force : Bool) (s : AppState)
    (P : List Product) (S : List Sale) (E : List Expense) (C : List Customer)
    (hon : s.online = true) (hg : s.status = NetworkStatus.SYNCING → force = true)
    (hpost : ∀ sh a p, gw.postOk sh a p = true)
    (hP : gw.fetchProducts = some P) (hS : gw.fetchSales = some S)
    (hE : gw.fetchExpenses = some E) (hC : gw.fetchCustomers = some C) :
    (handleSync gw force none s).queue = [] ∧
    (handleSync gw force none s).status = NetworkStatus.ONLINE ∧
    (handleSync gw force none s).products = P ∧
    (handleSync gw force none s).storedProducts = P ∧
    (handleSync gw force none s).sales = S ∧
    (handleSync gw force none s).storedSales = S ∧
    (handleSync gw force none s).expenses = E ∧
    (handleSync gw force none s).storedExpenses = E ∧
    (handleSync gw force none s).customers = C ∧
    (handleSync gw force none s).storedCustomers = C := by
  have hdr : s.queue.filter (survives gw s.queue) = [] :=
    drained_empty gw s.queue (fun i _ => hpost i.sheet i.action i.payload)
  rw [handleSync_none_eq gw force s hon hg]
  simp [hdr, hP, hS, hE, hC]

/-- Witness for C2 at a concrete state with one pending entry and a gateway
returning one product. -/
theorem sync_success_drains_and_pulls_witness :
    (handleSync fetchingGateway false none busyState).queue = [] ∧
    (handleSync fetchingGateway false none busyState).status = NetworkStatus.ONLINE ∧
    (handleSync fetchingGateway false none busyState).products = [oneProduct] ∧
    (handleSync fetchingGateway false none busyState).storedProducts = [oneProduct] ∧
    (handleSync fetchingGateway false none busyState).sales = [] ∧
    (handleSync fetchingGateway false none busyState).storedSales = [] ∧
    (handleSync fetchingGateway false none busyState).expenses = [] ∧
    (handleSync fetchingGateway false none busyState).storedExpenses = [] ∧
    (handleSync fetchingGateway false none busyState).customers = [] ∧
    (handleSync fetchingGateway false none busyState).storedCustomers = [] :=
  sync_success_drains_and_pulls fetchingGateway false busyState [oneProduct] [] [] []
    rfl (fun h => absurd h (by decide)) (fun _ _ _ => rfl) rfl rfl rfl rfl

/-- C3: within one pass over the default targets, failures are isolated.
Drain side: an entry whose delivery fails (and whose id no delivered entry
shares) stays in the queue, while every entry whose delivery succeeds is
removed even when other entries fail — the loop continues past failures.
Pull side, per collection: a failed fetch leaves both the in-memory and the
stored copy untouched, while a sibling whose fetch succeeds is still
overwritten with the fetched list. -/
theorem sync_failure_isolated (gw : Gateway) (force : Bool) (s : AppState)
    (hon : s.online = true) (hg : s.status = NetworkStatus.SYNCING → force = true) :
    (∀ e ∈ s.queue, gw.postOk e.sheet e.action e.payload = false →
      (∀ i ∈ s.queue, gw.postOk i.sheet i.action i.payload = true → i.id ≠ e.id) →
      e ∈ (handleSync gw force none s).queue) ∧
    (∀ e ∈ s.queue, gw.postOk e.sheet e.action e.payload = true →
      e ∉ (handleSync gw force none s).queue) ∧
    (gw.fetchProducts = none →
      (handleSync gw force none s).products = s.products ∧
      (handleSync gw force none s).storedProducts = s.storedProducts) ∧
    (∀ d, gw.fetchProducts = some d →
      (handleSync gw force none s).products = d ∧
      (handleSync gw force none s).storedProducts = d) ∧
    (gw.fetchSales = none →
      (handleSync gw force none s).sales = s.sales ∧
      (handleSync gw force none s).storedSales = s.storedSales) ∧
    (∀ d, gw.fetchSales = some d →
      (handleSync gw force none s).sales = d ∧
      (handleSync gw force none s).storedSales = d) ∧
    (gw.fetchExpenses = none →
      (handleSync gw force none s).expenses = s.expenses ∧
      (handleSync gw force none s).storedExpenses = s.storedExpenses) ∧
    (∀ d, gw.fetchExpenses = some d →
      (handleSync gw force none s).expenses = d ∧
      (handleSync gw force none s).storedExpenses = d) ∧
    (gw.fetchCustomers = none →
      (handleSync gw force none s).customers = s.customers ∧
      (handleSync gw force none s).storedCustomers = s.storedCustomers) ∧
    (∀ d, gw.fetchCustomers = some d →
      (handleSync gw force none s).customers = d ∧
      (handleSync gw force none s).storedCustomers = d) := by
  have hQ : (handleSync gw force none s).queue = s.queue.filter (survives gw s.queue) := by
    rw [handleSync_none_eq gw force s hon hg]
  have hPr : (handleSync gw force none s).products = gw.fetchProducts.getD s.products := by
    rw [handleSync_none_eq gw force s hon hg]
  have hPs : (handleSync gw force none s).storedProducts =
      gw.fetchProducts.getD s.storedProducts := by
    rw [handleSync_none_eq gw force s hon hg]
  have hSa : (handleSync gw force none s).sales = gw.fetchSales.getD s.sales := by
    rw [handleSync_none_eq gw force s hon hg]
  have hSs : (handleSync gw force none s).storedSales = gw.fetchSales.getD s.storedSales := by
    rw [handleSync_none_eq gw force s hon hg]
  have hEx : (handleSync gw force none s).expenses = gw.fetchExpenses.getD s.expenses := by
    rw [handleSync_none_eq gw force s hon hg]
  have hEs : (handleSync gw force none s).storedExpenses =
      gw.fetchExpenses.getD s.storedExpenses := by
    rw [handleSync_none_eq gw force s hon hg]
  have hCu : (handleSync gw force none s).customers = gw.fetchCustomers.getD s.customers := by
    rw [handleSync_none_eq gw force s hon hg]
  have hCs : (handleSync gw force none s).storedCustomers =
      gw.fetchCustomers.getD s.storedCustomers := by
    rw [handleSync_none_eq gw force s hon hg]
  refine ⟨?_, ?_, ?_, ?_, ?_, ?_, ?_, ?_, ?_, ?_⟩
  · intro e he hfail hnoid
    rw [hQ]
    rw [List.mem_filter]
    refine ⟨he, ?_⟩
    rw [survives, List.all_eq_true]
    intro i hi
    cases hpi : gw.postOk i.sheet i.action i.payload
    · simp
    · have : e.id ≠ i.id := fun hc => (hnoid i hi hpi) (hc.symm)
      simp [this]
  · intro e he hsucc hmem
    rw [hQ] at hmem
    have hs := (List.mem_filter.mp hmem).2
    have := (List.all_eq_true.mp hs) e he
    rw [hsucc] at this
    simp at this
  · intro h
    rw [hPr, hPs, h]
    exact ⟨rfl, rfl⟩
  · intro d h
    rw [hPr, hPs, h]
    exact ⟨rfl, rfl⟩
  · intro h
    rw [hSa, hSs, h]
    exact ⟨rfl, rfl⟩
  · intro d h
    rw [hSa, hSs, h]
    exact ⟨rfl, rfl⟩
  · intro h
    rw [hEx, hEs, h]
    exact ⟨rfl, rfl⟩
  · intro d h
    rw [hEx, hEs, h]
    exact ⟨rfl, rfl⟩
  · intro h
    rw [hCu, hCs, h]
    exact ⟨rfl, rfl⟩
  · intro d h
    rw [hCu, hCs, h]
    exact ⟨rfl, rfl⟩

/-- Witness for C3 at a concrete state whose single queue entry fails to
deliver and a gateway whose Sales fetch fails while the Products fetch
succeeds. -/
theorem sync_failure_isolated_witness :
    qEntry ∈ (handleSync mixedGateway false none busyState).queue ∧
    (handleSync mixedGateway false none busyState).sales = busyState.sales ∧
    (handleSync mixedGateway false none busyState).storedSales = busyState.storedSales ∧
    (handleSync mixedGateway false none busyState).products = [oneProduct] := by
  have h := sync_failure_isolated mixedGateway false busyState rfl
    (fun hx => absurd hx (by decide))
  refine ⟨?_, ?_, ?_, ?_⟩
  · exact h.1 qEntry (by simp [busyState, blankState]) rfl
      (fun i hi hpost => Bool.noConfusion hpost)
  · exact (h.2.2.2.2.1 rfl).1
  · exact (h.2.2.2.2.1 rfl).2
  · exact (h.2.2.2.1 [oneProduct] rfl).1

/-- C9 counterexample: in an already-initialized app the deferred callback
registered by the connectivity-restored handler is not a sync attempt — run
at the post-signal state it changes nothing, while an actual sync attempt
against the same gateway loads the fetched product. -/
theorem online_deferred_sync_counterexample :
    runDeferredOnlineCb fetchingGateway (handleOnline initState) ≠
      handleSync fetchingGateway false none (handleOnline initState) := by
  decide

theorem saleUpdatedProduct_id (sd : SaleInput) (nowIso : String) (p : Product) :
    (saleUpdatedProduct sd nowIso p).id = p.id := rfl

theorem saleUpdatedCustomer_id (sd : SaleInput) (cd : CustomerInput)
    (now nowIso : String) (c : Customer) :
    (saleUpdatedCustomer sd cd now nowIso c).id = c.id := rfl

/-- C5: recording a sale whose product name matches an existing product leaves
that product with stock max(0, previous stock - quantity) — never negative —
and prepends a new Sale record carrying the sale quantity, persisting the
updated product collection. -/
theorem sale_decrements_stock_clamped (sd : SaleInput) (cd : CustomerInput)
    (ts : Nat) (now nowIso : String) (s : AppState) (p : Product)
    (hfind : s.products.find? (fun x => decide (x.Name = sd.ProductName)) = some p)
    (hcons : s.storedProducts = s.products) :
    ∃ p' : Product,
      p'.Stock = max 0 (p.Stock - sd.Quantity) ∧ p'.id = p.id ∧ p'.Name = p.Name ∧
      (handleSaleSubmit sd cd ts now nowIso s).products =
        s.products.map (fun x => if x.id = p.id then p' else x) ∧
      (handleSaleSubmit sd cd ts now nowIso s).storedProducts =
        (handleSaleSubmit sd cd ts now nowIso s).products ∧
      (handleSaleSubmit sd cd ts now nowIso s).sales.length = s.sales.length + 1 ∧
      ∃ ns : Sale, (handleSaleSubmit sd cd ts now nowIso s).sales.head? = some ns ∧
        ns.Quantity = sd.Quantity ∧ ns.ProductName = sd.ProductName ∧
        ns.Total = sd.Total := by
  have hfind1 : (saleStep1 sd ts now s).products.find?
      (fun x => decide (x.Name = sd.ProductName)) = some p := by
    rw [saleStep1_products]
    exact hfind
  have hfp : (handleSaleSubmit sd cd ts now nowIso s).products
      = (saleStep2 sd ts nowIso (saleStep1 sd ts now s)).products := by
    show (saleStep3 sd cd ts now nowIso
        (saleStep2 sd ts nowIso (saleStep1 sd ts now s))).products = _
    rw [saleStep3_products]
  have hfps : (handleSaleSubmit sd cd ts now nowIso s).storedProducts
      = (saleStep2 sd ts nowIso (saleStep1 sd ts now s)).storedProducts := by
    show (saleStep3 sd cd ts now nowIso
        (saleStep2 sd ts nowIso (saleStep1 sd ts now s))).storedProducts = _
    rw [saleStep3_storedProducts]
  have hsal : (handleSaleSubmit sd cd ts now nowIso s).sales
      = (saleStep1 sd ts now s).sales := by
    show (saleStep3 sd cd ts now nowIso
        (saleStep2 sd ts nowIso (saleStep1 sd ts now s))).sales = _
    rw [saleStep3_sales, saleStep2_sales]
  refine ⟨saleUpdatedProduct sd nowIso p, rfl, rfl, rfl, ?_, ?_, ?_, ?_⟩
  · rw [hfp]
    unfold saleStep2
    rw [hfind1]
    dsimp only
    simp only [updateLocalItem, saleStep1_storedProducts, hcons, saleUpdatedProduct_id]
  · rw [hfps, hfp]
    unfold saleStep2
    rw [hfind1]
  · rw [hsal]
    rfl
  · refine ⟨mkNewSale sd ts now, ?_, rfl, rfl, rfl⟩
    rw [hsal]
    rfl

/-- Witness for C5: against the stock-10 Bread product, a quantity-3 sale
leaves stock 7 and a quantity-20 sale leaves stock 0, and each adds one Sale
record with the sale quantity. -/
theorem sale_decrements_stock_clamped_witness :
    (∃ p' : Product,
      p'.Stock = 7 ∧ p'.id = "1" ∧ p'.Name = "Bread" ∧
      (handleSaleSubmit demoSale3 demoCust 300 "t1" "i1" demoState).products =
        demoState.products.map (fun x => if x.id = "1" then p' else x) ∧
      (handleSaleSubmit demoSale3 demoCust 300 "t1" "i1" demoState).storedProducts =
        (handleSaleSubmit demoSale3 demoCust 300 "t1" "i1" demoState).products ∧
      (handleSaleSubmit demoSale3 demoCust 300 "t1" "i1" demoState).sales.length = 1 ∧
      ∃ ns : Sale,
        (handleSaleSubmit demoSale3 demoCust 300 "t1" "i1" demoState).sales.head? = some ns ∧
        ns.Quantity = 3 ∧ ns.ProductName = "Bread" ∧ ns.Total = 30) ∧
    (∃ p' : Product,
      p'.Stock = 0 ∧ p'.id = "1" ∧ p'.Name = "Bread" ∧
      (handleSaleSubmit demoSale20 demoCust 300 "t1" "i1" demoState).products =
        demoState.products.map (fun x => if x.id = "1" then p' else x) ∧
      (handleSaleSubmit demoSale20 demoCust 300 "t1" "i1" demoState).storedProducts =
        (handleSaleSubmit demoSale20 demoCust 300 "t1" "i1" demoState).products ∧
      (handleSaleSubmit demoSale20 demoCust 300 "t1" "i1" demoState).sales.length = 1 ∧
      ∃ ns : Sale,
        (handleSaleSubmit demoSale20 demoCust 300 "t1" "i1" demoState).sales.head? = some ns ∧
        ns.Quantity = 20 ∧ ns.ProductName = "Bread" ∧ ns.Total = 200) :=
  ⟨sale_decrements_stock_clamped demoSale3 demoCust 300 "t1" "i1" demoState oneProduct
      (by decide) (by decide),
    sale_decrements_stock_clamped demoSale20 demoCust 300 "t1" "i1" demoState oneProduct
      (by decide) (by decide)⟩

/-- C6: recording a sale against a phone that matches an existing customer
creates no new Customer record: the collection keeps its length, the matched
record (same id, same phone) gets the sale total added to its cumulative
purchases and its last-purchase stamp refreshed, and the updated collection is
persisted. -/
theorem sale_upserts_existing_customer (sd : SaleInput) (cd : CustomerInput) (ts : Nat)
    (now nowIso : String) (s : AppState) (c : Customer)
    (hfind : s.customers.find? (fun x => decide (x.Phone = cd.Phone)) = some c)
    (hcons : s.storedCustomers = s.customers) :
    ∃ c' : Customer,
      c'.TotalPurchases = c.TotalPurchases + sd.Total ∧
      c'.LastPurchase = some now ∧
      c'.Phone = c.Phone ∧
      c'.id = c.id ∧
      (handleSaleSubmit sd cd ts now nowIso s).customers =
        s.customers.map (fun x => if x.id = c.id then c' else x) ∧
      (handleSaleSubmit sd cd ts now nowIso s).storedCustomers =
        (handleSaleSubmit sd cd ts now nowIso s).customers ∧
      (handleSaleSubmit sd cd ts now nowIso s).customers.length = s.customers.length := by
  have hfind2 : (saleStep2 sd ts nowIso (saleStep1 sd ts now s)).customers.find?
      (fun x => decide (x.Phone = cd.Phone)) = some c := by
    rw [saleStep2_customers, saleStep1_customers]
    exact hfind
  have hstored2 : (saleStep2 sd ts nowIso (saleStep1 sd ts now s)).storedCustomers
      = s.customers := by
    rw [saleStep2_storedCustomers, saleStep1_storedCustomers, hcons]
  have hc : (handleSaleSubmit sd cd ts now nowIso s).customers
      = (saleStep3 sd cd ts now nowIso
          (saleStep2 sd ts nowIso (saleStep1 sd ts now s))).customers := rfl
  have hsc : (handleSaleSubmit sd cd ts now nowIso s).storedCustomers
      = (saleStep3 sd cd ts now nowIso
          (saleStep2 sd ts nowIso (saleStep1 sd ts now s))).storedCustomers := rfl
  refine ⟨saleUpdatedCustomer sd cd now nowIso c, rfl, rfl, rfl, rfl, ?_, ?_, ?_⟩
  · rw [hc]
    unfold saleStep3
    rw [hfind2]
    dsimp only
    simp only [updateLocalItem, hstored2, saleUpdatedCustomer_id]
  · rw [hsc, hc]
    unfold saleStep3
    rw [hfind2]
  · rw [hc]
    unfold saleStep3
    rw [hfind2]
    dsimp only
    simp only [updateLocalItem, hstored2, List.length_map]

/-- Witness for C6: two sales for phone 0600000000 with totals 50 then 30 —
the first run on the empty state, the second on the state the first one
produced — leave a single Customer record with cumulative total 80. -/
theorem sale_upserts_existing_customer_witness :
    ∃ c' : Customer,
      c'.TotalPurchases = 80 ∧
      c'.LastPurchase = some "03/01/2026 11:00:00" ∧
      c'.Phone = "0600000000" ∧
      c'.id = "101" ∧
      (handleSaleSubmit demoSale3 demoCust 200 "03/01/2026 11:00:00" "iso2"
          afterFirstSale).customers =
        afterFirstSale.customers.map (fun x => if x.id = firstSaleCustomer.id then c' else x) ∧
      (handleSaleSubmit demoSale3 demoCust 200 "03/01/2026 11:00:00" "iso2"
          afterFirstSale).storedCustomers =
        (handleSaleSubmit demoSale3 demoCust 200 "03/01/2026 11:00:00" "iso2"
          afterFirstSale).customers ∧
      (handleSaleSubmit demoSale3 demoCust 200 "03/01/2026 11:00:00" "iso2"
          afterFirstSale).customers.length = 1 :=
  sale_upserts_existing_customer demoSale3 demoCust 200 "03/01/2026 11:00:00" "iso2"
    afterFirstSale firstSaleCustomer (by decide) (by decide)

/-- C7: deleting a record that exists in a collection leaves, under that
(collection, id) key, exactly one queue entry — a DELETE whose payload is the
pre-deletion record with its uppercase ID ensured — and the record is gone
from both the in-memory and the stored copy of the collection immediately,
with no sync pass involved. -/
theorem delete_enqueues_single_tombstone (s : AppState) (sh : SheetName) (i : String)
    (ts : Nat) (it : AppItem) (hne : i ≠ "") (hfind : memFind s sh i = some it) :
    filterKey sh i (executeDelete i sh ts s).queue =
      [⟨i, SyncAction.DELETE, sh, deletePayload it, ts⟩] ∧
    memFind (executeDelete i sh ts s) sh i = none ∧
    storedFind (executeDelete i sh ts s) sh i = none := by
  cases sh with
  | Products =>
    simp only [memFind] at hfind
    rw [Option.map_eq_some'] at hfind
    obtain ⟨x, hx, hxe⟩ := hfind
    subst hxe
    have hpx := List.find?_some hx
    simp only [decide_eq_true_eq] at hpx
    unfold executeDelete
    rw [if_neg hne]
    dsimp only
    rw [hx]
    dsimp only
    refine ⟨?_, ?_, ?_⟩
    · rw [filterKey_add, if_pos ⟨rfl, hpx⟩, hpx]
    · simp only [memFind, Option.map_eq_none', List.find?_eq_none]
      intro y hy
      have h2 := (List.mem_filter.mp hy).2
      simp only [Bool.not_eq_true'] at h2
      simp [h2]
    · simp only [storedFind, Option.map_eq_none', List.find?_eq_none]
      intro y hy
      have h2 := (List.mem_filter.mp hy).2
      simp only [Bool.not_eq_true'] at h2
      simp [h2]
  | Sales =>
    simp only [memFind] at hfind
    rw [Option.map_eq_some'] at hfind
    obtain ⟨x, hx, hxe⟩ := hfind
    subst hxe
    have hpx := List.find?_some hx
    simp only [decide_eq_true_eq] at hpx
    unfold executeDelete
    rw [if_neg hne]
    dsimp only
    rw [hx]
    dsimp only
    refine ⟨?_, ?_, ?_⟩
    · rw [filterKey_add, if_pos ⟨rfl, hpx⟩, hpx]
    · simp only [memFind, Option.map_eq_none', List.find?_eq_none]
      intro y hy
      have h2 := (List.mem_filter.mp hy).2
      simp only [Bool.not_eq_true'] at h2
      simp [h2]
    · simp only [storedFind, Option.map_eq_none', List.find?_eq_none]
      intro y hy
      have h2 := (List.mem_filter.mp hy).2
      simp only [Bool.not_eq_true'] at h2
      simp [h2]
  | Expenses =>
    simp only [memFind] at hfind
    rw [Option.map_eq_some'] at hfind
    obtain ⟨x, hx, hxe⟩ := hfind
    subst hxe
    have hpx := List.find?_some hx
    simp only [decide_eq_true_eq] at hpx
    unfold executeDelete
    rw [if_neg hne]
    dsimp only
    rw [hx]
    dsimp only
    refine ⟨?_, ?_, ?_⟩
    · rw [filterKey_add, if_pos ⟨rfl, hpx⟩, hpx]
    · simp only [memFind, Option.map_eq_none', List.find?_eq_none]
      intro y hy
      have h2 := (List.mem_filter.mp hy).2
      simp only [Bool.not_eq_true'] at h2
      simp [h2]
    · simp only [storedFind, Option.map_eq_none', List.find?_eq_none]
      intro y hy
      have h2 := (List.mem_filter.mp hy).2
      simp only [Bool.not_eq_true'] at h2
      simp [h2]
  | Customers =>
    simp only [memFind] at hfind
    rw [Option.map_eq_some'] at hfind
    obtain ⟨x, hx, hxe⟩ := hfind
    subst hxe
    have hpx := List.find?_some hx
    simp only [decide_eq_true_eq] at hpx
    unfold executeDelete
    rw [if_neg hne]
    dsimp only
    rw [hx]
    dsimp only
    refine ⟨?_, ?_, ?_⟩
    · rw [filterKey_add, if_pos ⟨rfl, hpx⟩, hpx]
    · simp only [memFind, Option.map_eq_none', List.find?_eq_none]
      intro y hy
      have h2 := (List.mem_filter.mp hy).2
      simp only [Bool.not_eq_true'] at h2
      simp [h2]
    · simp only [storedFind, Option.map_eq_none', List.find?_eq_none]
      intro y hy
      have h2 := (List.mem_filter.mp hy).2
      simp only [Bool.not_eq_true'] at h2
      simp [h2]

/-- Witness for C7: deleting the stock-10 Bread product from the demo state. -/
theorem delete_enqueues_single_tombstone_witness :
    filterKey SheetName.Products "1"
        (executeDelete "1" SheetName.Products 400 demoState).queue =
      [⟨"1", SyncAction.DELETE, SheetName.Products,
        deletePayload (AppItem.product oneProduct), 400⟩] ∧
    memFind (executeDelete "1" SheetName.Products 400 demoState) SheetName.Products "1"
      = none ∧
    storedFind (executeDelete "1" SheetName.Products 400 demoState) SheetName.Products "1"
      = none :=
  delete_enqueues_single_tombstone demoState SheetName.Products "1" 400
    (AppItem.product oneProduct) (by decide) (by decide)

/-- In the update path of the customer save, the remapped Email expression
equals the merged Address expression. -/
theorem merged_email_eq_address (d : CustomerForm) (c : Customer) :
    orElseStr d.Address (d.Address.getD c.Address) = d.Address.getD c.Address := by
  cases ha : d.Address with
  | none => rfl
  | some a => simp [orElseStr]

/-- The customer step of a sale keeps the Email = Address duplication on both
the in-memory and the stored collection. -/
theorem saleStep3_email_inv (sd : SaleInput) (cd : CustomerInput) (ts : Nat)
    (now nowIso : String) (s : AppState)
    (hm : ∀ x ∈ s.customers, x.Email = x.Address)
    (hs : ∀ x ∈ s.storedCustomers, x.Email = x.Address) :
    (∀ x ∈ (saleStep3 sd cd ts now nowIso s).customers, x.Email = x.Address) ∧
    (∀ x ∈ (saleStep3 sd cd ts now nowIso s).storedCustomers, x.Email = x.Address) := by
  unfold saleStep3
  cases hf : s.customers.find? (fun c => decide (c.Phone = cd.Phone)) with
  | some c =>
    dsimp only
    constructor <;>
    · intro x hx
      simp only [updateLocalItem, List.mem_map] at hx
      obtain ⟨y, hy, hxy⟩ := hx
      split at hxy
      · rw [← hxy]
        rfl
      · rw [← hxy]
        exact hs y hy
  | none =>
    dsimp only
    constructor <;>
    · intro x hx
      rcases List.mem_cons.mp hx with h | h
      · rw [h]
        rfl
      · exact hm x h

/-- C8: every write of a Customer record through the applier — the update and
add paths of the save handler and both branches of the sale-driven upsert —
keeps the remote-facing Email field equal to the Address field, on the
in-memory and on the stored collection alike. -/
theorem customer_email_mirrors_address (s : AppState) (c : Customer) (d : CustomerForm)
    (newId : String) (ts : Nat) (nowIso nowFmt : String)
    (sd : SaleInput) (cd : CustomerInput) (now : String)
    (hm : ∀ x ∈ s.customers, x.Email = x.Address)
    (hs : ∀ x ∈ s.storedCustomers, x.Email = x.Address) :
    (∀ x ∈ (handleSaveItemCustomers (some c) d newId ts nowIso nowFmt s).customers,
      x.Email = x.Address) ∧
    (∀ x ∈ (handleSaveItemCustomers (some c) d newId ts nowIso nowFmt s).storedCustomers,
      x.Email = x.Address) ∧
    (∀ x ∈ (handleSaveItemCustomers none d newId ts nowIso nowFmt s).customers,
      x.Email = x.Address) ∧
    (∀ x ∈ (handleSaveItemCustomers none d newId ts nowIso nowFmt s).storedCustomers,
      x.Email = x.Address) ∧
    (∀ x ∈ (handleSaleSubmit sd cd ts now nowIso s).customers, x.Email = x.Address) ∧
    (∀ x ∈ (handleSaleSubmit sd cd ts now nowIso s).storedCustomers,
      x.Email = x.Address) := by
  have hsale := saleStep3_email_inv sd cd ts now nowIso
    (saleStep2 sd ts nowIso (saleStep1 sd ts now s))
    (by rw [saleStep2_customers, saleStep1_customers]; exact hm)
    (by rw [saleStep2_storedCustomers, saleStep1_storedCustomers]; exact hs)
  refine ⟨?_, ?_, ?_, ?_, hsale.1, hsale.2⟩
  · intro x hx
    simp only [handleSaveItemCustomers, updateLocalItem, List.mem_map] at hx
    obtain ⟨y, hy, hxy⟩ := hx
    split at hxy
    · rw [← hxy]
      exact merged_email_eq_address d c
    · rw [← hxy]
      exact hs y hy
  · intro x hx
    simp only [handleSaveItemCustomers, updateLocalItem, List.mem_map] at hx
    obtain ⟨y, hy, hxy⟩ := hx
    split at hxy
    · rw [← hxy]
      exact merged_email_eq_address d c
    · rw [← hxy]
      exact hs y hy
  · intro x hx
    simp only [handleSaveItemCustomers] at hx
    rcases List.mem_cons.mp hx with h | h
    · rw [h]
    · exact hm x h
  · intro x hx
    simp only [handleSaveItemCustomers] at hx
    rcases List.mem_cons.mp hx with h | h
    · rw [h]
    · exact hm x h

/-- Witness for C8 at the demo state, whose customer satisfies the
duplication, for a form that changes the address and for the demo sale. -/
theorem customer_email_mirrors_address_witness :
    (∀ x ∈ (handleSaveItemCustomers (some oneCustomer) demoForm "500" 500 "i5" "t5"
        demoState).customers, x.Email = x.Address) ∧
    (∀ x ∈ (handleSaveItemCustomers (some oneCustomer) demoForm "500" 500 "i5" "t5"
        demoState).storedCustomers, x.Email = x.Address) ∧
    (∀ x ∈ (handleSaveItemCustomers none demoForm "500" 500 "i5" "t5"
        demoState).customers, x.Email = x.Address) ∧
    (∀ x ∈ (handleSaveItemCustomers none demoForm "500" 500 "i5" "t5"
        demoState).storedCustomers, x.Email = x.Address) ∧
    (∀ x ∈ (handleSaleSubmit demoSale3 demoCust 500 "t6" "i5" demoState).customers,
      x.Email = x.Address) ∧
    (∀ x ∈ (handleSaleSubmit demoSale3 demoCust 500 "t6" "i5" demoState).storedCustomers,
      x.Email = x.Address) :=
  customer_email_mirrors_address demoState oneCustomer demoForm "500" 500 "i5" "t5"
    demoSale3 demoCust "t6" (by decide) (by decide)

end CemoArt
